import Mathlib

set_option maxHeartbeats 1000000

namespace BioDebug

/-- Trace of block-device primitive invocations: one event per call the test
code issues to the device (erase with its offset and length, a one-block
write, a one-block read). The trace is ghost instrumentation recording the
order of device operations; it changes no computed value. -/
inductive Event where
  | eraseOp : Nat → Nat → Event
  | writeOp : Nat → Event
  | readOp : Nat → Event

deriving instance DecidableEq, Repr for Event

/-- Diagnostic messages printed by bio_test_device in src/lib/bio/debug.c,
modelled as values: the I/O-failure report of the erase phase, the erase
validation-error count, the notice that the write phase is skipped, and the
write validation-error count, each carrying the printed number. -/
inductive Msg where
  | erase_io_error : Int → Msg
  | erase_error_count : Int → Msg
  | not_continuing : Msg
  | write_error_count : Int → Msg

deriving instance DecidableEq, Repr for Msg

/-- Modelled from the spec: the block-device capability of sections 3 and 6.
The bdev_t structure and the bio read/write/erase primitives live outside the
analysed source file, so only the four fields and three operations debug.c
consumes are modelled. The state type threads device mutation: read_block
returns the ssize_t byte count together with the bytes read, write_block and
erase return the ssize_t status together with the successor state. -/
structure bdev (σ : Type) where
  block_size : Nat
  block_count : Nat
  total_size : Nat
  erase_byte : Nat
  read_block : σ → Nat → Int × List Nat
  write_block : σ → Nat → List Nat → Int × σ
  erase : σ → Nat → Nat → Int × σ

/-- Modelled from the spec: ERR_IO is the negative I/O error status from the
repository header err.h, which is outside the analysed source; only its
negativity is relied upon by debug.c. -/
def ERR_IO : Int := -20

variable {σ : Type}

/-- From get_signature in src/lib/bio/debug.c: XOR-fold of the four bytes of
the 32-bit block index. -/
def get_signature (word : Nat) : Nat :=
  let w := word % 4294967296
  ((w % 256) ^^^ (w / 256 % 256)) ^^^ ((w / 65536 % 256) ^^^ (w / 16777216 % 256))

/-- From is_valid_block in src/lib/bio/debug.c: read one block; a negative or
short read yields false, otherwise every byte at position i is compared with
pattern[i % pattern_length], short-circuiting on the first mismatch. -/
def is_valid_block (d : bdev σ) (st : σ) (block_num : Nat) (pattern : List Nat) : Bool :=
  let r := d.read_block st block_num
  if r.1 < 0 ∨ r.1 ≠ (d.block_size : Int) then false
  else (List.range d.block_size).all fun i => r.2.getD i 0 == pattern.getD (i % pattern.length) 0

/-- From erase_test in src/lib/bio/debug.c: one whole-device erase call; a
negative status is propagated, a byte count different from total_size becomes
ERR_IO, and otherwise every block is validated against the one-byte pattern
of the erase byte, counting the blocks that fail. The result carries the
ssize_t return value, the device state after the erase, and the trace of
device operations issued. -/
def erase_test (d : bdev σ) (st : σ) : Int × σ × List Event :=
  let r := d.erase st 0 d.total_size
  if r.1 < 0 then
    (r.1, r.2, [Event.eraseOp 0 d.total_size])
  else if r.1 ≠ (d.total_size : Int) then
    ( ERR_IO , r.2, [Event.eraseOp 0 d.total_size])
  else
    let num_invalid_blocks :=
      (List.range d.block_count).countP fun bnum => !(is_valid_block d r.2 bnum [d.erase_byte])
    ((num_invalid_blocks : Int), r.2,
      Event.eraseOp 0 d.total_size :: (List.range d.block_count).map Event.readOp)

/-- Phase A of write_test in src/lib/bio/debug.c, over an explicit list of
block numbers: fill a block-sized buffer with the block's signature and write
it; the first write returning a negative status aborts the phase and carries
the status and the state at that point. -/
def write_phase (d : bdev σ) : List Nat → σ → (Except (Int × σ) σ) × List Event
  | [], st => (Except.ok st, [])
  | bnum :: rest, st =>
    let r := d.write_block st bnum (List.replicate d.block_size (get_signature bnum))
    if r.1 < 0 then
      (Except.error (r.1, r.2), [Event.writeOp bnum])
    else
      let w := write_phase d rest r.2
      (w.1, Event.writeOp bnum :: w.2)

/-- From write_test in src/lib/bio/debug.c: Phase A writes every block's
signature (aborting on the first failing write and propagating its status);
Phase B then validates every block against the one-byte pattern of its
signature and returns the count of failing blocks. -/
def write_test (d : bdev σ) (st : σ) : Int × σ × List Event :=
  let r := write_phase d (List.range d.block_count) st
  match r.1 with
  | Except.error e => (e.1, e.2, r.2)
  | Except.ok st1 =>
    let num_errors :=
      (List.range d.block_count).countP fun bnum => !(is_valid_block d st1 bnum [get_signature bnum])
    ((num_errors : Int), st1, r.2 ++ (List.range d.block_count).map Event.readOp)

/-- From bio_test_device in src/lib/bio/debug.c: run erase_test; a negative
result reports an I/O failure and returns -1; a nonzero count reports the
erase errors, skips the write phase and returns -1; otherwise run write_test
and return -1 on a nonzero result, 0 otherwise. The printed diagnostics are
modelled as the list of Msg values, in print order. -/
def bio_test_device (d : bdev σ) (st : σ) : Int × List Msg × List Event :=
  let r1 := erase_test d st
  if r1.1 < 0 then
    (-1, [Msg.erase_io_error r1.1], r1.2.2)
  else if r1.1 ≠ 0 then
    (-1, [Msg.erase_error_count r1.1, Msg.not_continuing], r1.2.2)
  else
    let r2 := write_test d r1.2.1
    if r2.1 ≠ 0 then
      (-1, [Msg.erase_error_count r1.1, Msg.write_error_count r2.1], r1.2.2 ++ r2.2.2)
    else
      (0, [Msg.erase_error_count r1.1, Msg.write_error_count r2.1], r1.2.2 ++ r2.2.2)

/-- Concrete device on Unit state whose erase call fails with status -5. -/
def devEraseErr : bdev Unit :=
  ⟨4, 4, 16, 0, fun _ _ => (4, [0, 0, 0, 0]), fun _ _ _ => (4, ()), fun _ _ _ => (-5, ())⟩

/-- Concrete device on Unit state: erase succeeds in full, writes succeed,
but block 2 reads back a byte that is neither the erase byte nor any
signature, so exactly one block fails validation in either phase. -/
def devBadBlock : bdev Unit :=
  ⟨4, 4, 16, 0,
    fun _ bn => (4, if bn = 2 then [9, 0, 0, 0] else [0, 0, 0, 0]),
    fun _ _ _ => (4, ()),
    fun _ _ _ => (16, ())⟩

/-- Concrete device on Unit state behaving perfectly for the write test:
every block reads back filled with its own signature. -/
def devAllGood : bdev Unit :=
  ⟨4, 4, 16, 0,
    fun _ bn => (4, List.replicate 4 (get_signature bn)),
    fun _ _ _ => (4, ()),
    fun _ _ _ => (16, ())⟩

/-- Concrete device on Unit state whose every write fails with status -7. -/
def devWriteErr : bdev Unit :=
  ⟨4, 4, 16, 0, fun _ _ => (4, [0, 0, 0, 0]), fun _ _ _ => (-7, ()), fun _ _ _ => (16, ())⟩

/-- Concrete device on Unit state whose blocks read back as the byte 7. -/
def devPattern : bdev Unit :=
  ⟨4, 4, 16, 0, fun _ _ => (4, [7, 7, 7, 7]), fun _ _ _ => (4, ()), fun _ _ _ => (16, ())⟩

/-- Concrete well-behaved memory device: the state maps each block number to
its contents, erase resets every block to the erase byte, writes store the
written bytes, and reads return the stored bytes in full. -/
def devMem : bdev (Nat → List Nat) :=
  ⟨4, 4, 16, 0,
    fun st bn => (4, st bn),
    fun st bn data => (4, fun b => if b = bn then data else st b),
    fun _ _ _ => (16, fun _ => List.replicate 4 0)⟩

/-- Initial contents of the memory device: arbitrary garbage bytes. -/
def memInit : Nat → List Nat := fun _ => [5, 6, 7, 8]

example : (erase_test devBadBlock ()).1 = 1 := by decide
example : (erase_test devEraseErr ()).1 = -5 := by decide
example : (write_test devAllGood ()).1 = 0 := by decide
example : (write_test devWriteErr ()).1 = -7 := by decide
example : (bio_test_device devMem memInit).1 = 0 := by decide
example : (bio_test_device devBadBlock ()).1 = -1 := by decide
example : get_signature 257 = 0 := by decide

/-- C8: the signature function is not injective: the distinct 32-bit block
indices 0 and 257 XOR-fold to the same one-byte signature. -/
theorem get_signature_not_injective :
    ∃ i j : Nat, i < 4294967296 ∧ j < 4294967296 ∧ i ≠ j ∧ get_signature i = get_signature j :=
  ⟨0, 257, by decide, by decide, by decide, by decide⟩

/-- C2: a negative erase status, or a successful erase whose transferred
count differs from total_size, makes erase_test return a negative IoError,
and its trace is the single erase call: no per-block validation read is
performed. -/
theorem erase_test_io_error (d : bdev σ) (st : σ)
    (h : (d.erase st 0 d.total_size).1 < 0 ∨ (d.erase st 0 d.total_size).1 ≠ (d.total_size : Int)) :
    (erase_test d st).1 < 0 ∧ (erase_test d st).2.2 = [Event.eraseOp 0 d.total_size] := by
  by_cases hneg : (d.erase st 0 d.total_size).1 < 0
  · constructor <;> simp [erase_test, hneg]
  · have hne : (d.erase st 0 d.total_size).1 ≠ (d.total_size : Int) := h.resolve_left hneg
    constructor <;> simp [erase_test, hneg, hne, ERR_IO ]

/-- Witness for C2 at the concrete device devEraseErr, whose erase call
fails with status -5. -/
theorem erase_test_io_error_witness :
    (erase_test devEraseErr ()).1 < 0 ∧
      (erase_test devEraseErr ()).2.2 = [Event.eraseOp 0 devEraseErr.total_size] :=
  erase_test_io_error devEraseErr () (Or.inl (by decide))

/-- C3: when the erase call reports success with the full total_size count,
erase_test returns exactly the number of block indices failing validation
against the one-byte erase-byte pattern, and its trace holds one validation
read for every block index in order: the scan covers all blocks and never
aborts early on accumulated failures. -/
theorem erase_test_counts (d : bdev σ) (st : σ)
    (h : (d.erase st 0 d.total_size).1 = (d.total_size : Int)) :
    (erase_test d st).1 =
      (((List.range d.block_count).filter fun bnum =>
          !(is_valid_block d (d.erase st 0 d.total_size).2 bnum [d.erase_byte])).length : Int) ∧
    (erase_test d st).2.2 =
      Event.eraseOp 0 d.total_size :: (List.range d.block_count).map Event.readOp := by
  have h0 : ¬ ((d.total_size : Int) < 0) := by omega
  constructor
  · simp [erase_test, h0, h, List.countP_eq_length_filter]
  · simp [erase_test, h0, h]

/-- Witness for C3 at the concrete device devBadBlock, where the erase call
succeeds in full and exactly one block (index 2) fails validation. -/
theorem erase_test_counts_witness :
    (erase_test devBadBlock ()).1 = 1 ∧
      (erase_test devBadBlock ()).2.2 =
        Event.eraseOp 0 16 :: (List.range 4).map Event.readOp := by
  have h := erase_test_counts devBadBlock () (by decide)
  exact ⟨h.1.trans (by decide), h.2.trans (by decide)⟩

/-- C4: for a non-empty pattern, a read returning exactly block_size bytes
makes is_valid_block true iff every byte position k of the block matches
pattern[k % pattern_length]; a failed read or one returning a byte count
other than block_size makes it false. -/
theorem is_valid_block_correct (d : bdev σ) (st : σ) (block_num : Nat) (pattern : List Nat)
    (_hp : pattern ≠ []) :
    ((d.read_block st block_num).1 = (d.block_size : Int) →
      (is_valid_block d st block_num pattern = true ↔
        ∀ k, k < d.block_size →
          (d.read_block st block_num).2.getD k 0 = pattern.getD (k % pattern.length) 0)) ∧
    (((d.read_block st block_num).1 < 0 ∨ (d.read_block st block_num).1 ≠ (d.block_size : Int)) →
      is_valid_block d st block_num pattern = false) := by
  constructor
  · intro h
    have h0 : ¬ ((d.read_block st block_num).1 < 0 ∨
        (d.read_block st block_num).1 ≠ (d.block_size : Int)) := by
      rw [h]; simp
    simp [is_valid_block, h0, List.all_eq_true, List.mem_range]
  · intro h
    rcases h with h | h <;> simp [is_valid_block, h]

/-- Witness for C4 at the concrete device devPattern, whose block 0 reads
back as four bytes 7, validated against the one-byte pattern 7. -/
theorem is_valid_block_correct_witness :
    is_valid_block devPattern () 0 [7] = true := by
  have h := is_valid_block_correct devPattern () 0 [7] (by decide)
  exact (h.1 (by decide)).mpr (by decide)

/-- Structure of Phase A over an arbitrary block list: on success the trace
is one write per listed block in order; on failure the carried status is
negative and the trace is the writes of the listed blocks up to and
including the failing one, so nothing is written past the first failure. -/
theorem write_phase_spec (d : bdev σ) (l : List Nat) :
    ∀ st : σ,
      (∀ st1, (write_phase d l st).1 = Except.ok st1 →
        (write_phase d l st).2 = l.map Event.writeOp) ∧
      (∀ e, (write_phase d l st).1 = Except.error e →
        e.1 < 0 ∧ ∃ k, k < l.length ∧
          (write_phase d l st).2 = (l.take (k + 1)).map Event.writeOp) := by
  induction l with
  | nil =>
    intro st
    refine ⟨fun st1 _ => rfl, fun e he => ?_⟩
    simp [write_phase] at he
  | cons bnum rest ih =>
    intro st
    by_cases hw : (d.write_block st bnum (List.replicate d.block_size (get_signature bnum))).1 < 0
    · have key1 : (write_phase d (bnum :: rest) st).1 =
          Except.error ((d.write_block st bnum (List.replicate d.block_size (get_signature bnum))).1,
            (d.write_block st bnum (List.replicate d.block_size (get_signature bnum))).2) := by
        simp [write_phase, hw]
      have key2 : (write_phase d (bnum :: rest) st).2 = [Event.writeOp bnum] := by
        simp [write_phase, hw]
      refine ⟨fun st1 h1 => ?_, fun e he => ?_⟩
      · rw [key1] at h1; exact absurd h1 (by simp)
      · rw [key1] at he
        have he2 : ((d.write_block st bnum (List.replicate d.block_size (get_signature bnum))).1,
            (d.write_block st bnum (List.replicate d.block_size (get_signature bnum))).2) = e :=
          Except.error.inj he
        refine ⟨?_, 0, by simp, by rw [key2]; rfl⟩
        rw [← he2]
        exact hw
    · have key1 : (write_phase d (bnum :: rest) st).1 =
          (write_phase d rest
            (d.write_block st bnum (List.replicate d.block_size (get_signature bnum))).2).1 := by
        simp [write_phase, hw]
      have key2 : (write_phase d (bnum :: rest) st).2 =
          Event.writeOp bnum ::
            (write_phase d rest
              (d.write_block st bnum (List.replicate d.block_size (get_signature bnum))).2).2 := by
        simp [write_phase, hw]
      obtain ⟨ihOk, ihErr⟩ :=
        ih (d.write_block st bnum (List.replicate d.block_size (get_signature bnum))).2
      refine ⟨fun st1 h1 => ?_, fun e he => ?_⟩
      · rw [key1] at h1
        rw [key2, List.map_cons, ihOk st1 h1]
      · rw [key1] at he
        obtain ⟨hneg, k, hk, htr⟩ := ihErr e he
        refine ⟨hneg, k + 1, by simp; omega, ?_⟩
        rw [key2, htr, List.take_succ_cons, List.map_cons]

/-- C5: when every Phase A write succeeds (write_phase ends in ok),
write_test returns exactly the number of block indices whose persisted
contents fail validation against the one-byte pattern of their signature,
and 0 when every block reads back filled with its signature. -/
theorem write_test_counts (d : bdev σ) (st : σ) (st1 : σ)
    (h : (write_phase d (List.range d.block_count) st).1 = Except.ok st1) :
    (write_test d st).1 =
      (((List.range d.block_count).filter fun bnum =>
          !(is_valid_block d st1 bnum [get_signature bnum])).length : Int) := by
  simp [write_test, h, List.countP_eq_length_filter]

/-- Witness for C5 at the concrete device devAllGood, where all writes
succeed and every block reads back as its signature, giving count 0. -/
theorem write_test_counts_witness : (write_test devAllGood ()).1 = 0 := by
  have h := write_test_counts devAllGood () () (by rfl)
  exact h.trans (by decide)

/-- C6: a failing Phase A write makes write_test abort and propagate that
negative status: its trace holds the writes up to and including the failing
one and no validation read; and when every write succeeds, the write of
every block index appears in the trace before any Phase B validation read. -/
theorem write_test_abort_order (d : bdev σ) (st : σ) :
    (∀ e, (write_phase d (List.range d.block_count) st).1 = Except.error e →
      (write_test d st).1 = e.1 ∧ e.1 < 0 ∧
      (∀ b, Event.readOp b ∉ (write_test d st).2.2) ∧
      ∃ k, k < d.block_count ∧
        (write_test d st).2.2 = (List.range (k + 1)).map Event.writeOp) ∧
    (∀ st1, (write_phase d (List.range d.block_count) st).1 = Except.ok st1 →
      (write_test d st).2.2 =
        (List.range d.block_count).map Event.writeOp ++
          (List.range d.block_count).map Event.readOp) := by
  constructor
  · intro e he
    obtain ⟨hneg, k, hk, htr⟩ := (write_phase_spec d (List.range d.block_count) st).2 e he
    have hlen : k < d.block_count := by simpa using hk
    have htest : write_test d st =
        (e.1, e.2, (write_phase d (List.range d.block_count) st).2) := by
      simp [write_test, he]
    refine ⟨by rw [htest], hneg, ?_, k, hlen, ?_⟩
    · intro b hb
      rw [htest] at hb
      have hb2 : Event.readOp b ∈ (List.take (k + 1) (List.range d.block_count)).map Event.writeOp := by
        rw [← htr]; exact hb
      obtain ⟨x, _, hx⟩ := List.mem_map.mp hb2
      exact absurd hx (by simp)
    · rw [htest]
      have : (e.1, e.2, (write_phase d (List.range d.block_count) st).2).2.2 =
          (write_phase d (List.range d.block_count) st).2 := rfl
      rw [this, htr, List.take_range, Nat.min_eq_left hlen]
  · intro st1 h
    have htr := (write_phase_spec d (List.range d.block_count) st).1 st1 h
    simp [write_test, h, htr]

/-- Witness for C6 at the concrete device devWriteErr, whose very first
write fails with status -7: write_test propagates -7, issues no read, and
its trace is the single failing write. -/
theorem write_test_abort_order_witness :
    (write_test devWriteErr ()).1 = -7 ∧
      Event.readOp 0 ∉ (write_test devWriteErr ()).2.2 ∧
      (write_test devWriteErr ()).2.2 = [Event.writeOp 0] := by
  have h := (write_test_abort_order devWriteErr ()).1 ((-7 : Int), ()) (by rfl)
  exact ⟨h.1, h.2.2.1 0, by decide⟩

/-- The erase_test trace never holds a write event: in each branch it is the
erase call, possibly followed by validation reads only. -/
theorem erase_test_no_write (d : bdev σ) (st : σ) (b : Nat) :
    Event.writeOp b ∉ (erase_test d st).2.2 := by
  by_cases h1 : (d.erase st 0 d.total_size).1 < 0
  · simp [erase_test, h1]
  · by_cases h2 : (d.erase st 0 d.total_size).1 ≠ (d.total_size : Int)
    · simp [erase_test, h1, h2]
    · simp [erase_test, h1, h2, List.mem_map]

/-- C7: a positive erase_test error count makes bio_test_device return the
FAIL verdict -1 and skip the write phase entirely: no write operation
appears anywhere in its device-operation trace. -/
theorem bio_test_device_skips_write (d : bdev σ) (st : σ)
    (h : 0 < (erase_test d st).1) :
    (bio_test_device d st).1 = -1 ∧
      ∀ b, Event.writeOp b ∉ (bio_test_device d st).2.2 := by
  have h1 : ¬ (erase_test d st).1 < 0 := by omega
  have h2 : (erase_test d st).1 ≠ 0 := by omega
  have key : bio_test_device d st =
      (-1, [Msg.erase_error_count (erase_test d st).1, Msg.not_continuing],
        (erase_test d st).2.2) := by
    simp [bio_test_device, h1, h2]
  rw [key]
  exact ⟨rfl, fun b => erase_test_no_write d st b⟩

/-- Witness for C7 at the concrete device devBadBlock, whose erase phase
reports one validation error: the verdict is -1 and block 0 is never
written. -/
theorem bio_test_device_skips_write_witness :
    (bio_test_device devBadBlock ()).1 = -1 ∧
      Event.writeOp 0 ∉ (bio_test_device devBadBlock ()).2.2 := by
  have h := bio_test_device_skips_write devBadBlock () (by decide)
  exact ⟨h.1, h.2 0⟩

/-- C1: the verdict of bio_test_device is 0 (PASS) or -1 (FAIL), and it is
PASS exactly when erase_test reports zero errors and write_test, run on the
post-erase device state, reports zero errors; any negative result or nonzero
count from either phase therefore yields FAIL. -/
theorem bio_test_device_pass_iff (d : bdev σ) (st : σ) :
    ((bio_test_device d st).1 = 0 ∨ (bio_test_device d st).1 = -1) ∧
      ((bio_test_device d st).1 = 0 ↔
        (erase_test d st).1 = 0 ∧ (write_test d (erase_test d st).2.1).1 = 0) := by
  rcases lt_trichotomy (erase_test d st).1 0 with h1 | h1 | h1
  · have key : (bio_test_device d st).1 = -1 := by simp [bio_test_device, h1]
    rw [key]
    refine ⟨Or.inr rfl, ?_, ?_⟩
    · intro hc; omega
    · rintro ⟨ha, _⟩; omega
  · by_cases h2 : (write_test d (erase_test d st).2.1).1 = 0
    · have key : (bio_test_device d st).1 = 0 := by simp [bio_test_device, h1, h2]
      rw [key]
      exact ⟨Or.inl rfl, by simp [h1, h2]⟩
    · have key : (bio_test_device d st).1 = -1 := by simp [bio_test_device, h1, h2]
      rw [key]
      refine ⟨Or.inr rfl, ?_, ?_⟩
      · intro hc; omega
      · rintro ⟨_, hb⟩; exact absurd hb h2
  · have h1a : ¬ (erase_test d st).1 < 0 := by omega
    have h1b : (erase_test d st).1 ≠ 0 := by omega
    have key : (bio_test_device d st).1 = -1 := by simp [bio_test_device, h1a, h1b]
    rw [key]
    refine ⟨Or.inr rfl, ?_, ?_⟩
    · intro hc; omega
    · rintro ⟨ha, _⟩; omega

/-- Witness for C1 at the concrete well-behaved memory device: both phases
report zero errors and the verdict is PASS. -/
theorem bio_test_device_pass_iff_witness :
    (bio_test_device devMem memInit).1 = 0 :=
  (bio_test_device_pass_iff devMem memInit).2.mpr ⟨by decide, by decide⟩

/-- C9: bio_test_device returns 0 (PASS) or -1 (FAIL), and every FAIL
carries, in its emitted diagnostics, the first phase at which failure
occurred together with that phase's count: the erase I/O failure message
with its negative status, the erase validation count followed by the
skip-writes notice, or the write phase count after a clean erase. -/
theorem bio_test_device_verdict (d : bdev σ) (st : σ) :
    ((bio_test_device d st).1 = 0 ∨ (bio_test_device d st).1 = -1) ∧
      ((bio_test_device d st).1 = -1 →
        ((erase_test d st).1 < 0 ∧
          (bio_test_device d st).2.1 = [Msg.erase_io_error (erase_test d st).1]) ∨
        (0 < (erase_test d st).1 ∧
          (bio_test_device d st).2.1 =
            [Msg.erase_error_count (erase_test d st).1, Msg.not_continuing]) ∨
        ((erase_test d st).1 = 0 ∧ (write_test d (erase_test d st).2.1).1 ≠ 0 ∧
          (bio_test_device d st).2.1 =
            [Msg.erase_error_count 0,
              Msg.write_error_count (write_test d (erase_test d st).2.1).1])) := by
  rcases lt_trichotomy (erase_test d st).1 0 with h1 | h1 | h1
  · have k1 : (bio_test_device d st).1 = -1 := by simp [bio_test_device, h1]
    have k2 : (bio_test_device d st).2.1 = [Msg.erase_io_error (erase_test d st).1] := by
      simp [bio_test_device, h1]
    exact ⟨Or.inr k1, fun _ => Or.inl ⟨h1, k2⟩⟩
  · by_cases h2 : (write_test d (erase_test d st).2.1).1 = 0
    · have k1 : (bio_test_device d st).1 = 0 := by simp [bio_test_device, h1, h2]
      exact ⟨Or.inl k1, fun hc => absurd (k1.symm.trans hc) (by decide)⟩
    · have k1 : (bio_test_device d st).1 = -1 := by simp [bio_test_device, h1, h2]
      have k2 : (bio_test_device d st).2.1 =
          [Msg.erase_error_count 0,
            Msg.write_error_count (write_test d (erase_test d st).2.1).1] := by
        simp [bio_test_device, h1, h2]
      exact ⟨Or.inr k1, fun _ => Or.inr (Or.inr ⟨h1, h2, k2⟩)⟩
  · have h1a : ¬ (erase_test d st).1 < 0 := by omega
    have h1b : (erase_test d st).1 ≠ 0 := by omega
    have k1 : (bio_test_device d st).1 = -1 := by simp [bio_test_device, h1a, h1b]
    have k2 : (bio_test_device d st).2.1 =
        [Msg.erase_error_count (erase_test d st).1, Msg.not_continuing] := by
      simp [bio_test_device, h1a, h1b]
    exact ⟨Or.inr k1, fun _ => Or.inr (Or.inl ⟨h1, k2⟩)⟩

/-- Witness for C9 at the concrete device devBadBlock: the FAIL verdict is
accompanied by the erase-phase error count and the skip notice. -/
theorem bio_test_device_verdict_witness :
    (bio_test_device devBadBlock ()).2.1 =
      [Msg.erase_error_count (erase_test devBadBlock ()).1, Msg.not_continuing] := by
  have h := (bio_test_device_verdict devBadBlock ()).2 (by decide)
  rcases h with h | h | h
  · exact absurd h.1 (by decide)
  · exact h.2
  · exact absurd h.1 (by decide)

/-- C10: whenever the erase phase reaches its validation loop (the erase
reported the full total_size byte count) or the write phase reaches Phase B
(write_phase ended in ok), the returned error count lies between 0 and
block_count. -/
theorem phase_error_count_bounds (d : bdev σ) (st : σ) :
    ((d.erase st 0 d.total_size).1 = (d.total_size : Int) →
      0 ≤ (erase_test d st).1 ∧ (erase_test d st).1 ≤ (d.block_count : Int)) ∧
    (∀ st1, (write_phase d (List.range d.block_count) st).1 = Except.ok st1 →
      0 ≤ (write_test d st).1 ∧ (write_test d st).1 ≤ (d.block_count : Int)) := by
  constructor
  · intro h
    have h0 : ¬ ((d.total_size : Int) < 0) := by omega
    have key : (erase_test d st).1 =
        (((List.range d.block_count).countP fun bnum =>
          !(is_valid_block d (d.erase st 0 d.total_size).2 bnum [d.erase_byte])) : Int) := by
      simp [erase_test, h0, h]
    rw [key]
    have hc0 : ((List.range d.block_count).countP fun bnum =>
        !(is_valid_block d (d.erase st 0 d.total_size).2 bnum [d.erase_byte])) ≤
        (List.range d.block_count).length :=
      List.countP_le_length _
    have hc : ((List.range d.block_count).countP fun bnum =>
        !(is_valid_block d (d.erase st 0 d.total_size).2 bnum [d.erase_byte])) ≤ d.block_count := by
      simpa using hc0
    constructor
    · omega
    · exact_mod_cast hc
  · intro st1 h
    have key : (write_test d st).1 =
        (((List.range d.block_count).countP fun bnum =>
          !(is_valid_block d st1 bnum [get_signature bnum])) : Int) := by
      simp [write_test, h]
    rw [key]
    have hc0 : ((List.range d.block_count).countP fun bnum =>
        !(is_valid_block d st1 bnum [get_signature bnum])) ≤
        (List.range d.block_count).length :=
      List.countP_le_length _
    have hc : ((List.range d.block_count).countP fun bnum =>
        !(is_valid_block d st1 bnum [get_signature bnum])) ≤ d.block_count := by
      simpa using hc0
    constructor
    · omega
    · exact_mod_cast hc

/-- Witness for C10 at the concrete device devBadBlock: both phases reach
their counting loop and both counts lie between 0 and block_count 4. -/
theorem phase_error_count_bounds_witness :
    0 ≤ (erase_test devBadBlock ()).1 ∧
      (erase_test devBadBlock ()).1 ≤ (devBadBlock.block_count : Int) ∧
      0 ≤ (write_test devBadBlock ()).1 ∧
      (write_test devBadBlock ()).1 ≤ (devBadBlock.block_count : Int) := by
  obtain ⟨ha, hb⟩ := phase_error_count_bounds devBadBlock ()
  have h1 := ha (by decide)
  have h2 := hb () (by rfl)
  exact ⟨h1.1, h1.2, h2.1, h2.2⟩

end BioDebug
